import Mathlib

/-!
# Headless EGL platform: context, surface and fence lifecycle

Shallow embedding of `filament/backend/src/opengl/PlatformEGLHeadless.cpp`.

* Every EGL/GL handle (`EGLDisplay`, `EGLSurface`, `EGLContext`, `EGLConfig`,
  `EGLSyncKHR`, `SwapChain*`, `Fence*`, `Driver*`, function pointers) is an
  opaque machine word; it is a `Nat` here and the null handle is `0`.
* The platform (the EGL driver, bluegl, the OpenGL driver factory) is external.
  Each member function takes the values the platform answers with as explicit
  arguments and returns a `Run`: the manager afterwards, the list of platform
  calls it issued, in order, and how it ended.
* `assert`, `ASSERT_POSTCONDITION` and a call through a null function pointer
  do not return; they are separate outcomes.
* Logging through `slog` is not a platform call and is left out; the
  `eglGetError()` call made by `logEglError` is one and is recorded.
-/

namespace filament

/-! ## Handles and constants of the EGL headers -/

abbrev Handle := Nat
abbrev EGLBoolean := Nat
abbrev EGLint := Int

abbrev nullptr : Handle := 0
abbrev EGL_NO_DISPLAY : Handle := 0
abbrev EGL_NO_SURFACE : Handle := 0
abbrev EGL_NO_CONTEXT : Handle := 0
abbrev EGL_NO_SYNC_KHR : Handle := 0
abbrev EGL_DEFAULT_DISPLAY : Handle := 0
abbrev EGL_FALSE : EGLBoolean := 0
abbrev EGL_TRUE : EGLBoolean := 1

abbrev EGL_ALPHA_SIZE : EGLint := 0x3021
abbrev EGL_BLUE_SIZE : EGLint := 0x3022
abbrev EGL_GREEN_SIZE : EGLint := 0x3023
abbrev EGL_RED_SIZE : EGLint := 0x3024
abbrev EGL_DEPTH_SIZE : EGLint := 0x3025
abbrev EGL_SURFACE_TYPE : EGLint := 0x3033
abbrev EGL_NONE : EGLint := 0x3038
abbrev EGL_RENDERABLE_TYPE : EGLint := 0x3040
abbrev EGL_PBUFFER_BIT : EGLint := 0x0001
abbrev EGL_OPENGL_BIT : EGLint := 0x0008
abbrev EGL_EXTENSIONS : EGLint := 0x3055
abbrev EGL_HEIGHT : EGLint := 0x3056
abbrev EGL_WIDTH : EGLint := 0x3057
abbrev EGL_SWAP_BEHAVIOR : EGLint := 0x3093
abbrev EGL_BUFFER_DESTROYED : EGLint := 0x3095
abbrev EGL_CONTEXT_MAJOR_VERSION : EGLint := 0x3098
abbrev EGL_CONTEXT_MINOR_VERSION : EGLint := 0x30FB
abbrev EGL_CONTEXT_OPENGL_NO_ERROR_KHR : EGLint := 0x31B3
abbrev EGL_OPENGL_API : Nat := 0x30A2
abbrev EGL_TIMEOUT_EXPIRED_KHR : EGLint := 0x30F5
abbrev EGL_CONDITION_SATISFIED_KHR : EGLint := 0x30F6
abbrev GL_EXTENSIONS : Nat := 0x1F03
abbrev GL_NUM_EXTENSIONS : Nat := 0x821D

/-- The extension name tested before `eglCreateContext` in release builds. -/
def noErrorExtension : String := "EGL_KHR_create_context_no_error"

/-- Entry points looked up with `eglGetProcAddress` in `createDriver`. -/
inductive ProcName
  | eglCreateSyncKHR
  | eglDestroySyncKHR
  | eglClientWaitSyncKHR
  | eglCreateImageKHR
  | eglDestroyImageKHR
  deriving DecidableEq, Repr

/-- A call into the platform, with the arguments the code passes. An attribute
list is the array up to and including its terminator; `none` is a null list. -/
inductive Call
  | eglGetDisplay (displayId : Handle)
  | eglInitialize (dpy : Handle)
  | eglQueryString (dpy : Handle) (name : EGLint)
  | eglGetProcAddress (name : ProcName)
  | eglChooseConfig (dpy : Handle) (attribs : List EGLint) (configSize : EGLint)
  | eglCreatePbufferSurface (dpy config : Handle) (attribs : List EGLint)
  | eglCreateWindowSurface (dpy config nativeWindow : Handle) (attribs : Option (List EGLint))
  | eglSurfaceAttrib (dpy sur : Handle) (attr value : EGLint)
  | eglBindAPI (api : Nat)
  | eglCreateContext (dpy config share : Handle) (attribs : List EGLint)
  | eglMakeCurrent (dpy draw read ctx : Handle)
  | eglSwapBuffers (dpy sur : Handle)
  | eglDestroySurface (dpy sur : Handle)
  | eglDestroyContext (dpy ctx : Handle)
  | eglTerminate (dpy : Handle)
  | eglReleaseThread
  | eglGetError
  | eglCreateSyncKHR (dpy : Handle) (kind : Nat) (attribs : Option (List EGLint))
  | eglDestroySyncKHR (dpy sync : Handle)
  | eglClientWaitSyncKHR (dpy sync : Handle) (flags : EGLint) (timeout : Nat)
  | blueglBind
  | glGetIntegerv (pname : Nat)
  | glGetStringi (name index : Nat)
  | OpenGLDriverFactoryCreate (sharedContext : Handle)
  deriving DecidableEq, Repr

/-- `backend::FenceStatus`. -/
inductive FenceStatus
  | ERROR
  | CONDITION_SATISFIED
  | TIMEOUT_EXPIRED
  deriving DecidableEq, Repr

/-- The preprocessor symbols the file is compiled under: `NDEBUG` (release
build, `assert` compiled out) and `EGL_KHR_reusable_sync` (defined by the
platform's `EGL/eglext.h`). -/
structure Build where
  NDEBUG : Bool
  EGL_KHR_reusable_sync : Bool
  deriving DecidableEq, Repr

/-- The function pointers of `namespace glext` (lines 44-50); `0` is a pointer
that was never resolved. -/
structure glext where
  eglCreateSyncKHR : Handle
  eglDestroySyncKHR : Handle
  eglClientWaitSyncKHR : Handle
  eglCreateImageKHR : Handle
  eglDestroyImageKHR : Handle
  deriving DecidableEq, Repr

/-- The data members of `PlatformEGLHeadless` the member functions read and
write, together with the `glext` pointers they share. -/
structure PlatformEGLHeadless where
  mEGLDisplay : Handle
  mEGLContext : Handle
  mCurrentDrawSurface : Handle
  mCurrentReadSurface : Handle
  mEGLDummySurface : Handle
  mEGLConfig : Handle
  ext : glext
  deriving DecidableEq, Repr

/-- How a member function ends. -/
inductive Outcome (α : Type)
  | returned (value : α)
  | assertFailed
  | postconditionPanic
  | nullCall
  deriving DecidableEq, Repr

/-- One execution of a member function. -/
structure Run (α : Type) where
  state : PlatformEGLHeadless
  trace : List Call
  result : Outcome α

/-- What the platform answers during one `createDriver`. `config` is the value
`eglChooseConfig` stores through `&mEGLConfig`, if it stores one. -/
structure Platform where
  display : Handle
  initialized : EGLBoolean
  extensions : List String
  procAddress : ProcName → Handle
  chooseConfig : EGLBoolean
  config : Option Handle
  configsCount : EGLint
  pbufferSurface : Handle
  bindAPI : EGLBoolean
  context : Handle
  makeCurrent : EGLBoolean
  retval : Int
  numExtensions : Int
  driver : Handle

/-! ## Reading a trace -/

/-- The calls that release a resource. -/
def Call.isRelease : Call → Bool
  | Call.eglDestroySurface _ _ => true
  | Call.eglDestroyContext _ _ => true
  | Call.eglTerminate _ => true
  | Call.eglReleaseThread => true
  | _ => false

/-- The calls that create a surface or a context. -/
def Call.isCreation : Call → Bool
  | Call.eglCreatePbufferSurface _ _ _ => true
  | Call.eglCreateWindowSurface _ _ _ _ => true
  | Call.eglCreateContext _ _ _ _ => true
  | _ => false

/-- The release calls of a trace, in the order issued. -/
def releaseCalls (t : List Call) : List Call := t.filter Call.isRelease

namespace PlatformEGLHeadless

/-! ## Member functions -/

/-- `EGLBoolean makeCurrent(EGLSurface, EGLSurface)`, lines 205-212; `ret` is
what `eglMakeCurrent` returns if it is called. -/
def makeCurrent (self : PlatformEGLHeadless) (drawSurface readSurface : Handle)
    (ret : EGLBoolean) : Run EGLBoolean :=
  if drawSurface ≠ self.mCurrentDrawSurface ∨ readSurface ≠ self.mCurrentReadSurface then
    { state := { self with mCurrentDrawSurface := drawSurface,
                           mCurrentReadSurface := readSurface }
      trace := [Call.eglMakeCurrent self.mEGLDisplay drawSurface readSurface self.mEGLContext]
      result := Outcome.returned ret }
  else
    { state := self, trace := [], result := Outcome.returned EGL_TRUE }

/-- The `error:` label of `createDriver`, lines 187-202, entered with the calls
issued so far. -/
def errorLabel (self : PlatformEGLHeadless) (issued : List Call) : Run Handle :=
  let destroySurface :=
    if self.mEGLDummySurface ≠ 0 then
      [Call.eglDestroySurface self.mEGLDisplay self.mEGLDummySurface] else []
  let destroyContext :=
    if self.mEGLContext ≠ 0 then
      [Call.eglDestroyContext self.mEGLDisplay self.mEGLContext] else []
  { state := { self with mEGLDummySurface := EGL_NO_SURFACE, mEGLContext := EGL_NO_CONTEXT }
    trace := issued ++ destroySurface ++ destroyContext ++
      [Call.eglTerminate self.mEGLDisplay, Call.eglReleaseThread]
    result := Outcome.returned nullptr }

/-- The calls of `initializeGlExtensions`, lines 330-342, when `GL_NUM_EXTENSIONS`
reads `n`. -/
def initializeGlExtensions (n : Int) : List Call :=
  Call.glGetIntegerv GL_NUM_EXTENSIONS ::
    (List.range n.toNat).map (fun i => Call.glGetStringi GL_EXTENSIONS i)

/-- The array `configAttribs`, lines 108-117. -/
def configAttribs : List EGLint :=
  [EGL_RENDERABLE_TYPE, EGL_OPENGL_BIT, EGL_SURFACE_TYPE, EGL_PBUFFER_BIT,
   EGL_RED_SIZE, 8, EGL_GREEN_SIZE, 8, EGL_BLUE_SIZE, 8, EGL_ALPHA_SIZE, 8,
   EGL_DEPTH_SIZE, 24, EGL_NONE]

/-- The array `pbufferAttribs`, lines 127-131. -/
def pbufferAttribs : List EGLint := [EGL_WIDTH, 1, EGL_HEIGHT, 1, EGL_NONE]

/-- The array `contextAttribs`, lines 119-125, after the `#ifdef NDEBUG` block of
lines 133-140. -/
def contextAttribs (b : Build) (extensions : List String) (sharedContext : Handle) :
    List EGLint :=
  if b.NDEBUG = true ∧ sharedContext = 0 ∧ noErrorExtension ∈ extensions then
    [EGL_CONTEXT_MAJOR_VERSION, 4, EGL_CONTEXT_MINOR_VERSION, 1,
     EGL_CONTEXT_OPENGL_NO_ERROR_KHR, 1, EGL_NONE]
  else
    [EGL_CONTEXT_MAJOR_VERSION, 4, EGL_CONTEXT_MINOR_VERSION, 1,
     EGL_NONE, EGL_NONE, EGL_NONE]

/-- The five `eglGetProcAddress` lookups, lines 99-104. -/
def procLookups : List Call :=
  [Call.eglGetProcAddress ProcName.eglCreateSyncKHR,
   Call.eglGetProcAddress ProcName.eglDestroySyncKHR,
   Call.eglGetProcAddress ProcName.eglClientWaitSyncKHR,
   Call.eglGetProcAddress ProcName.eglCreateImageKHR,
   Call.eglGetProcAddress ProcName.eglDestroyImageKHR]

/-- `Driver* createDriver(void* sharedContext)`, lines 83-203. -/
def createDriver (b : Build) (p : Platform) (self : PlatformEGLHeadless)
    (sharedContext : Handle) : Run Handle :=
  let s1 := { self with mEGLDisplay := p.display }
  let t1 := [Call.eglGetDisplay EGL_DEFAULT_DISPLAY]
  if b.NDEBUG = false ∧ s1.mEGLDisplay = EGL_NO_DISPLAY then
    { state := s1, trace := t1, result := Outcome.assertFailed }
  else
  let t2 := t1 ++ [Call.eglInitialize s1.mEGLDisplay]
  if p.initialized = 0 then
    { state := s1, trace := t2, result := Outcome.returned nullptr }
  else
  let s2 := { s1 with ext :=
      { eglCreateSyncKHR := p.procAddress ProcName.eglCreateSyncKHR
        eglDestroySyncKHR := p.procAddress ProcName.eglDestroySyncKHR
        eglClientWaitSyncKHR := p.procAddress ProcName.eglClientWaitSyncKHR
        eglCreateImageKHR := p.procAddress ProcName.eglCreateImageKHR
        eglDestroyImageKHR := p.procAddress ProcName.eglDestroyImageKHR } }
  let t3 := t2 ++ [Call.eglQueryString s1.mEGLDisplay EGL_EXTENSIONS] ++ procLookups
  let s3 := { s2 with mEGLConfig := p.config.getD s2.mEGLConfig }
  let t4 := t3 ++ [Call.eglChooseConfig s2.mEGLDisplay configAttribs 1]
  if p.chooseConfig = 0 then errorLabel s3 (t4 ++ [Call.eglGetError])
  else if p.configsCount = 0 then errorLabel s3 t4
  else
  let s4 := { s3 with mEGLDummySurface := p.pbufferSurface }
  let t5 := t4 ++ [Call.eglCreatePbufferSurface s3.mEGLDisplay s3.mEGLConfig pbufferAttribs]
  if s4.mEGLDummySurface = EGL_NO_SURFACE then errorLabel s4 (t5 ++ [Call.eglGetError])
  else
  let t6 := t5 ++ [Call.eglBindAPI EGL_OPENGL_API] ++
    (if p.bindAPI = 0 then [Call.eglGetError] else [])
  let s5 := { s4 with mEGLContext := p.context }
  let t7 := t6 ++ [Call.eglCreateContext s4.mEGLDisplay s4.mEGLConfig sharedContext
    (contextAttribs b p.extensions sharedContext)]
  if s5.mEGLContext = EGL_NO_CONTEXT then errorLabel s5 (t7 ++ [Call.eglGetError])
  else
  let bound := makeCurrent s5 s5.mEGLDummySurface s5.mEGLDummySurface p.makeCurrent
  let t8 := t7 ++ bound.trace
  if bound.result = Outcome.returned 0 then errorLabel bound.state (t8 ++ [Call.eglGetError])
  else
  let t9 := t8 ++ [Call.blueglBind]
  if p.retval ≠ 0 then
    { state := bound.state, trace := t9, result := Outcome.postconditionPanic }
  else
    { state := bound.state
      trace := t9 ++ initializeGlExtensions p.numExtensions ++
        [Call.OpenGLDriverFactoryCreate sharedContext]
      result := Outcome.returned p.driver }

/-- `void terminate()`, lines 214-220. -/
def terminate (self : PlatformEGLHeadless) : Run Unit :=
  { state := self
    trace := [Call.eglMakeCurrent self.mEGLDisplay EGL_NO_SURFACE EGL_NO_SURFACE EGL_NO_CONTEXT,
              Call.eglDestroySurface self.mEGLDisplay self.mEGLDummySurface,
              Call.eglDestroyContext self.mEGLDisplay self.mEGLContext,
              Call.eglTerminate self.mEGLDisplay,
              Call.eglReleaseThread]
    result := Outcome.returned () }

/-- `SwapChain* createSwapChain(void* nativeWindow, uint64_t& flags)`, lines
222-238; `sur` and `attribOk` are what `eglCreateWindowSurface` and
`eglSurfaceAttrib` return. -/
def createSwapChain (self : PlatformEGLHeadless) (nativeWindow : Handle) (_flags : Nat)
    (sur : Handle) (attribOk : EGLBoolean) : Run Handle :=
  let t1 := [Call.eglCreateWindowSurface self.mEGLDisplay self.mEGLConfig nativeWindow none]
  if sur = EGL_NO_SURFACE then
    { state := self, trace := t1 ++ [Call.eglGetError], result := Outcome.returned nullptr }
  else
    { state := self
      trace := t1 ++ [Call.eglSurfaceAttrib self.mEGLDisplay sur EGL_SWAP_BEHAVIOR
          EGL_BUFFER_DESTROYED] ++ (if attribOk = 0 then [Call.eglGetError] else [])
      result := Outcome.returned sur }

/-- The conversion `EGLint(width)` of a `uint32_t`. -/
def toEGLint (w : Nat) : EGLint :=
  if w % 2 ^ 32 < 2 ^ 31 then (w % 2 ^ 32 : Nat) else ((w % 2 ^ 32 : Nat) : Int) - 2 ^ 32

/-- `SwapChain* createSwapChain(uint32_t width, uint32_t height, uint64_t& flags)`,
lines 240-257; `sur` is what `eglCreatePbufferSurface` returns. -/
def createSwapChainHeadless (self : PlatformEGLHeadless) (width height : Nat) (_flags : Nat)
    (sur : Handle) : Run Handle :=
  let t1 := [Call.eglCreatePbufferSurface self.mEGLDisplay self.mEGLConfig
    [EGL_WIDTH, toEGLint width, EGL_HEIGHT, toEGLint height, EGL_NONE]]
  if sur = EGL_NO_SURFACE then
    { state := self, trace := t1 ++ [Call.eglGetError], result := Outcome.returned nullptr }
  else
    { state := self, trace := t1, result := Outcome.returned sur }

/-- `void destroySwapChain(SwapChain*)`, lines 259-265; `ret` is what
`eglMakeCurrent` returns if it is called. -/
def destroySwapChain (self : PlatformEGLHeadless) (swapChain : Handle) (ret : EGLBoolean) :
    Run Unit :=
  if swapChain ≠ EGL_NO_SURFACE then
    let bound := makeCurrent self self.mEGLDummySurface self.mEGLDummySurface ret
    { state := bound.state
      trace := bound.trace ++ [Call.eglDestroySurface self.mEGLDisplay swapChain]
      result := Outcome.returned () }
  else
    { state := self, trace := [], result := Outcome.returned () }

/-- `void makeCurrent(SwapChain* drawSwapChain, SwapChain* readSwapChain)`, lines
267-274: the public bind. -/
def makeCurrentSwapChain (self : PlatformEGLHeadless) (drawSwapChain readSwapChain : Handle)
    (ret : EGLBoolean) : Run Unit :=
  if drawSwapChain ≠ EGL_NO_SURFACE ∨ readSwapChain ≠ EGL_NO_SURFACE then
    let bound := makeCurrent self drawSwapChain readSwapChain ret
    { state := bound.state, trace := bound.trace, result := Outcome.returned () }
  else
    { state := self, trace := [], result := Outcome.returned () }

/-- `void commit(SwapChain*)`, lines 276-281. -/
def commit (self : PlatformEGLHeadless) (swapChain : Handle) : Run Unit :=
  if swapChain ≠ EGL_NO_SURFACE then
    { state := self, trace := [Call.eglSwapBuffers self.mEGLDisplay swapChain],
      result := Outcome.returned () }
  else
    { state := self, trace := [], result := Outcome.returned () }

/-- `void destroyFence(Fence*)`, lines 291-298. -/
def destroyFence (b : Build) (self : PlatformEGLHeadless) (fence : Handle) : Run Unit :=
  if b.EGL_KHR_reusable_sync = true ∧ fence ≠ EGL_NO_SYNC_KHR then
    if self.ext.eglDestroySyncKHR = 0 then
      { state := self, trace := [], result := Outcome.nullCall }
    else
      { state := self, trace := [Call.eglDestroySyncKHR self.mEGLDisplay fence],
        result := Outcome.returned () }
  else
    { state := self, trace := [], result := Outcome.returned () }

/-- `FenceStatus waitFence(Fence*, uint64_t timeout)`, lines 300-315; `status` is
what `eglClientWaitSyncKHR` returns when it is called. -/
def waitFence (b : Build) (self : PlatformEGLHeadless) (fence : Handle) (timeout : Nat)
    (status : EGLint) : Run FenceStatus :=
  if b.EGL_KHR_reusable_sync = true ∧ fence ≠ EGL_NO_SYNC_KHR then
    if self.ext.eglClientWaitSyncKHR = 0 then
      { state := self, trace := [], result := Outcome.nullCall }
    else
      let t := [Call.eglClientWaitSyncKHR self.mEGLDisplay fence 0 timeout]
      if status = EGL_CONDITION_SATISFIED_KHR then
        { state := self, trace := t, result := Outcome.returned FenceStatus.CONDITION_SATISFIED }
      else if status = EGL_TIMEOUT_EXPIRED_KHR then
        { state := self, trace := t, result := Outcome.returned FenceStatus.TIMEOUT_EXPIRED }
      else
        { state := self, trace := t, result := Outcome.returned FenceStatus.ERROR }
  else
    { state := self, trace := [], result := Outcome.returned FenceStatus.ERROR }

/-! ## Sequences of public calls -/

/-- A call of the public surface interface, with its arguments. -/
inductive Op
  | createSwapChain (nativeWindow : Handle) (flags : Nat)
  | createSwapChainHeadless (width height : Nat) (flags : Nat)
  | destroySwapChain (swapChain : Handle)
  | makeCurrent (drawSwapChain readSwapChain : Handle)
  | commit (swapChain : Handle)
  deriving DecidableEq, Repr

/-- What the platform answers during one public call: the surface a creation
call returns and the `EGLBoolean` a boolean call returns. -/
structure Reply where
  surface : Handle
  status : EGLBoolean
  deriving DecidableEq, Repr

/-- One public call on the manager: the manager afterwards and the platform
calls issued. -/
def step (self : PlatformEGLHeadless) (op : Op) (r : Reply) :
    PlatformEGLHeadless × List Call :=
  match op with
  | Op.createSwapChain w f =>
      ((createSwapChain self w f r.surface r.status).state,
       (createSwapChain self w f r.surface r.status).trace)
  | Op.createSwapChainHeadless w h f =>
      ((createSwapChainHeadless self w h f r.surface).state,
       (createSwapChainHeadless self w h f r.surface).trace)
  | Op.destroySwapChain sc =>
      ((destroySwapChain self sc r.status).state, (destroySwapChain self sc r.status).trace)
  | Op.makeCurrent d rd =>
      ((makeCurrentSwapChain self d rd r.status).state,
       (makeCurrentSwapChain self d rd r.status).trace)
  | Op.commit sc => ((commit self sc).state, (commit self sc).trace)

/-- A sequence of public calls, each with the platform's answers. -/
def runOps (self : PlatformEGLHeadless) : List (Op × Reply) → PlatformEGLHeadless × List Call
  | [] => (self, [])
  | (op, r) :: rest =>
      ((runOps (step self op r).1 rest).1, (step self op r).2 ++ (runOps (step self op r).1 rest).2)

/-- A public bind that passes two valid handles or two null handles. -/
def Op.bindsWholePair : Op → Prop
  | Op.makeCurrent d rd => d = EGL_NO_SURFACE ↔ rd = EGL_NO_SURFACE
  | _ => True

/-! ## Paths of `createDriver` and invariants of the binding -/

/-- The state `createDriver` has built when it reaches step 8, the bind of the
dummy pair. -/
def beforeBind (p : Platform) (self : PlatformEGLHeadless) : PlatformEGLHeadless :=
  { self with
    mEGLDisplay := p.display
    ext := { eglCreateSyncKHR := p.procAddress ProcName.eglCreateSyncKHR
             eglDestroySyncKHR := p.procAddress ProcName.eglDestroySyncKHR
             eglClientWaitSyncKHR := p.procAddress ProcName.eglClientWaitSyncKHR
             eglCreateImageKHR := p.procAddress ProcName.eglCreateImageKHR
             eglDestroyImageKHR := p.procAddress ProcName.eglDestroyImageKHR }
    mEGLConfig := p.config.getD self.mEGLConfig
    mEGLDummySurface := p.pbufferSurface
    mEGLContext := p.context }

/-- The calls `createDriver` has issued when config selection returns. -/
def uptoConfig (p : Platform) : List Call :=
  [Call.eglGetDisplay EGL_DEFAULT_DISPLAY, Call.eglInitialize p.display,
   Call.eglQueryString p.display EGL_EXTENSIONS] ++ procLookups ++
  [Call.eglChooseConfig p.display configAttribs 1]

/-- The calls `createDriver` has issued when context creation returns. -/
def uptoContext (b : Build) (p : Platform) (self : PlatformEGLHeadless) (sc : Handle) :
    List Call :=
  uptoConfig p ++
  [Call.eglCreatePbufferSurface p.display (p.config.getD self.mEGLConfig) pbufferAttribs,
   Call.eglBindAPI EGL_OPENGL_API] ++
  (if p.bindAPI = 0 then [Call.eglGetError] else []) ++
  [Call.eglCreateContext p.display (p.config.getD self.mEGLConfig) sc
    (contextAttribs b p.extensions sc)]

/-- Steps 1 to 7 of `createDriver` all succeed. -/
def ReachesBind (b : Build) (p : Platform) : Prop :=
  ¬ (b.NDEBUG = false ∧ p.display = EGL_NO_DISPLAY) ∧ p.initialized ≠ 0 ∧
  p.chooseConfig ≠ 0 ∧ p.configsCount ≠ 0 ∧ p.pbufferSurface ≠ EGL_NO_SURFACE ∧
  p.context ≠ EGL_NO_CONTEXT

/-- The invariant of the public surface calls: the dummy surface is set and the
cached binding is not (null, null). -/
def BindingHeld (s : PlatformEGLHeadless) : Prop :=
  s.mEGLDummySurface ≠ EGL_NO_SURFACE ∧
  (s.mCurrentDrawSurface ≠ EGL_NO_SURFACE ∨ s.mCurrentReadSurface ≠ EGL_NO_SURFACE)

/-- The stronger invariant: both surfaces of the cached binding are set. -/
def BindingWhole (s : PlatformEGLHeadless) : Prop :=
  s.mEGLDummySurface ≠ EGL_NO_SURFACE ∧
  s.mCurrentDrawSurface ≠ EGL_NO_SURFACE ∧ s.mCurrentReadSurface ≠ EGL_NO_SURFACE

/-! ## Concrete inputs -/

/-- A manager none of whose handles is set. -/
def unset : PlatformEGLHeadless :=
  { mEGLDisplay := 0, mEGLContext := 0, mCurrentDrawSurface := 0, mCurrentReadSurface := 0,
    mEGLDummySurface := 0, mEGLConfig := 0,
    ext := { eglCreateSyncKHR := 0, eglDestroySyncKHR := 0, eglClientWaitSyncKHR := 0,
             eglCreateImageKHR := 0, eglDestroyImageKHR := 0 } }

/-- A release build against headers that define `EGL_KHR_reusable_sync`. -/
def releaseBuild : Build := { NDEBUG := true, EGL_KHR_reusable_sync := true }

/-- A platform on which every step succeeds: display 1, config 2, pbuffer
surface 3, context 4, driver 5, every entry point resolved. -/
def working : Platform :=
  { display := 1, initialized := 1, extensions := [], procAddress := fun _ => 9,
    chooseConfig := 1, config := some 2, configsCount := 1, pbufferSurface := 3,
    bindAPI := 1, context := 4, makeCurrent := 1, retval := 0, numExtensions := 0,
    driver := 5 }

/-- As `working`, but `eglMakeCurrent` fails. -/
def failsAtBind : Platform := { working with makeCurrent := 0 }

/-- As `working`, but config selection reports zero configs. -/
def noConfig : Platform := { working with configsCount := 0 }

/-- As `working`, but no extension entry point is resolved. -/
def noExtensions : Platform := { working with procAddress := fun _ => 0 }

/-! ## Lemmas shared by the theorems -/

theorem makeCurrent_state_draw (self : PlatformEGLHeadless) (d r : Handle) (ret : EGLBoolean) :
    (makeCurrent self d r ret).state.mCurrentDrawSurface = d := by
  unfold makeCurrent
  split_ifs with h
  · rfl
  · push_neg at h
    exact h.1.symm

theorem makeCurrent_state_read (self : PlatformEGLHeadless) (d r : Handle) (ret : EGLBoolean) :
    (makeCurrent self d r ret).state.mCurrentReadSurface = r := by
  unfold makeCurrent
  split_ifs with h
  · rfl
  · push_neg at h
    exact h.2.symm

theorem makeCurrent_state_dummy (self : PlatformEGLHeadless) (d r : Handle) (ret : EGLBoolean) :
    (makeCurrent self d r ret).state.mEGLDummySurface = self.mEGLDummySurface := by
  unfold makeCurrent
  split_ifs <;> rfl

theorem createDriver_config_path (b : Build) (p : Platform) (self : PlatformEGLHeadless)
    (sc : Handle) (h1 : ¬ (b.NDEBUG = false ∧ p.display = EGL_NO_DISPLAY))
    (h2 : p.initialized ≠ 0) (h3 : p.chooseConfig ≠ 0) (h4 : p.configsCount = 0) :
    (createDriver b p self sc).trace = uptoConfig p ++
      (if self.mEGLDummySurface ≠ 0 then [Call.eglDestroySurface p.display self.mEGLDummySurface]
        else []) ++
      (if self.mEGLContext ≠ 0 then [Call.eglDestroyContext p.display self.mEGLContext]
        else []) ++ [Call.eglTerminate p.display, Call.eglReleaseThread] ∧
    (createDriver b p self sc).result = Outcome.returned nullptr := by
  unfold createDriver
  rw [if_neg h1, if_neg h2, if_neg h3, if_pos h4]
  simp [errorLabel, uptoConfig]

theorem createDriver_bind_path (b : Build) (p : Platform) (self : PlatformEGLHeadless)
    (sc : Handle) (h : ReachesBind b p) :
    createDriver b p self sc =
      if (makeCurrent (beforeBind p self) p.pbufferSurface p.pbufferSurface
            p.makeCurrent).result = Outcome.returned 0 then
        errorLabel
          (makeCurrent (beforeBind p self) p.pbufferSurface p.pbufferSurface p.makeCurrent).state
          (uptoContext b p self sc ++
            (makeCurrent (beforeBind p self) p.pbufferSurface p.pbufferSurface
              p.makeCurrent).trace ++ [Call.eglGetError])
      else if p.retval ≠ 0 then
        { state := (makeCurrent (beforeBind p self) p.pbufferSurface p.pbufferSurface
            p.makeCurrent).state
          trace := uptoContext b p self sc ++
            (makeCurrent (beforeBind p self) p.pbufferSurface p.pbufferSurface
              p.makeCurrent).trace ++ [Call.blueglBind]
          result := Outcome.postconditionPanic }
      else
        { state := (makeCurrent (beforeBind p self) p.pbufferSurface p.pbufferSurface
            p.makeCurrent).state
          trace := uptoContext b p self sc ++
            (makeCurrent (beforeBind p self) p.pbufferSurface p.pbufferSurface
              p.makeCurrent).trace ++ [Call.blueglBind] ++
            initializeGlExtensions p.numExtensions ++ [Call.OpenGLDriverFactoryCreate sc]
          result := Outcome.returned p.driver } := by
  obtain ⟨h1, h2, h3, h4, h5, h6⟩ := h
  unfold createDriver
  rw [if_neg h1, if_neg h2, if_neg h3, if_neg h4, if_neg h5, if_neg h6]
  simp only [beforeBind, uptoContext, uptoConfig, List.append_assoc, List.cons_append,
    List.nil_append]

/-- A `createDriver` that returns a non-null driver passed steps 1 to 7. -/
theorem createDriver_success_steps (b : Build) (p : Platform) (self : PlatformEGLHeadless)
    (sc d : Handle) (hret : (createDriver b p self sc).result = Outcome.returned d)
    (hd : d ≠ nullptr) : ReachesBind b p := by
  have hnull : (createDriver b p self sc).result ≠ Outcome.returned nullptr := by
    rw [hret]
    intro h
    exact hd (Outcome.returned.inj h)
  by_cases h1 : b.NDEBUG = false ∧ p.display = EGL_NO_DISPLAY
  · unfold createDriver at hret
    rw [if_pos h1] at hret
    exact absurd hret (by simp)
  by_cases h2 : p.initialized = 0
  · exfalso; apply hnull; unfold createDriver; rw [if_neg h1, if_pos h2]
  by_cases h3 : p.chooseConfig = 0
  · exfalso; apply hnull; unfold createDriver; rw [if_neg h1, if_neg h2, if_pos h3]; rfl
  by_cases h4 : p.configsCount = 0
  · exfalso; apply hnull; unfold createDriver
    rw [if_neg h1, if_neg h2, if_neg h3, if_pos h4]; rfl
  by_cases h5 : p.pbufferSurface = EGL_NO_SURFACE
  · exfalso; apply hnull; unfold createDriver
    rw [if_neg h1, if_neg h2, if_neg h3, if_neg h4, if_pos h5]; rfl
  by_cases h6 : p.context = EGL_NO_CONTEXT
  · exfalso; apply hnull; unfold createDriver
    rw [if_neg h1, if_neg h2, if_neg h3, if_neg h4, if_neg h5, if_pos h6]; rfl
  exact ⟨h1, h2, h3, h4, h5, h6⟩

/-- The state a `createDriver` that returns a non-null driver leaves. -/
theorem createDriver_success_state (b : Build) (p : Platform) (self : PlatformEGLHeadless)
    (sc d : Handle) (hret : (createDriver b p self sc).result = Outcome.returned d)
    (hd : d ≠ nullptr) :
    (createDriver b p self sc).state =
      (makeCurrent (beforeBind p self) p.pbufferSurface p.pbufferSurface p.makeCurrent).state ∧
    p.pbufferSurface ≠ EGL_NO_SURFACE := by
  have hr := createDriver_success_steps b p self sc d hret hd
  have hnull : (createDriver b p self sc).result ≠ Outcome.returned nullptr := by
    rw [hret]
    intro h
    exact hd (Outcome.returned.inj h)
  refine ⟨?_, hr.2.2.2.2.1⟩
  rw [createDriver_bind_path b p self sc hr] at hnull ⊢
  split_ifs at hnull ⊢ with h7 h8
  · exact absurd rfl hnull
  · rfl
  · rfl

theorem createDriver_success_trace (b : Build) (p : Platform) (self : PlatformEGLHeadless)
    (sc d : Handle) (hret : (createDriver b p self sc).result = Outcome.returned d)
    (hd : d ≠ nullptr) :
    Call.eglCreatePbufferSurface p.display (p.config.getD self.mEGLConfig) pbufferAttribs ∈
      (createDriver b p self sc).trace := by
  have hr := createDriver_success_steps b p self sc d hret hd
  rw [createDriver_bind_path b p self sc hr]
  split_ifs <;> simp [errorLabel, uptoContext]

theorem releaseCalls_uptoConfig (p : Platform) : releaseCalls (uptoConfig p) = [] := by
  simp [releaseCalls, uptoConfig, procLookups, Call.isRelease]

theorem releaseCalls_uptoContext (b : Build) (p : Platform) (self : PlatformEGLHeadless)
    (sc : Handle) : releaseCalls (uptoContext b p self sc) = [] := by
  have h := releaseCalls_uptoConfig p
  unfold releaseCalls at h ⊢
  unfold uptoContext
  split_ifs <;> simp [h, Call.isRelease]

theorem releaseCalls_append (s t : List Call) :
    releaseCalls (s ++ t) = releaseCalls s ++ releaseCalls t := by
  simp [releaseCalls]

theorem createDriver_pbuffer_path (b : Build) (p : Platform) (self : PlatformEGLHeadless)
    (sc : Handle) (h1 : ¬ (b.NDEBUG = false ∧ p.display = EGL_NO_DISPLAY))
    (h2 : p.initialized ≠ 0) (h3 : p.chooseConfig ≠ 0) (h4 : p.configsCount ≠ 0)
    (h5 : p.pbufferSurface = EGL_NO_SURFACE) :
    (createDriver b p self sc).trace = uptoConfig p ++
      [Call.eglCreatePbufferSurface p.display (p.config.getD self.mEGLConfig) pbufferAttribs,
       Call.eglGetError] ++
      (if self.mEGLContext ≠ 0 then [Call.eglDestroyContext p.display self.mEGLContext]
        else []) ++ [Call.eglTerminate p.display, Call.eglReleaseThread] ∧
    (createDriver b p self sc).result = Outcome.returned nullptr := by
  unfold createDriver
  rw [if_neg h1, if_neg h2, if_neg h3, if_neg h4, if_pos h5]
  simp [errorLabel, uptoConfig, h5]

theorem createDriver_context_path (b : Build) (p : Platform) (self : PlatformEGLHeadless)
    (sc : Handle) (h1 : ¬ (b.NDEBUG = false ∧ p.display = EGL_NO_DISPLAY))
    (h2 : p.initialized ≠ 0) (h3 : p.chooseConfig ≠ 0) (h4 : p.configsCount ≠ 0)
    (h5 : p.pbufferSurface ≠ EGL_NO_SURFACE) (h6 : p.context = EGL_NO_CONTEXT) :
    (createDriver b p self sc).trace = uptoContext b p self sc ++
      [Call.eglGetError, Call.eglDestroySurface p.display p.pbufferSurface,
       Call.eglTerminate p.display, Call.eglReleaseThread] ∧
    (createDriver b p self sc).result = Outcome.returned nullptr := by
  unfold createDriver
  rw [if_neg h1, if_neg h2, if_neg h3, if_neg h4, if_neg h5, if_pos h6]
  simp [errorLabel, uptoContext, uptoConfig, h5, h6]

/-- Step 8 of `createDriver` fails: the dummy pair is not the cached binding, so
the platform is asked, and it returns `EGL_FALSE`. -/
theorem createDriver_bind_failure (b : Build) (p : Platform) (self : PlatformEGLHeadless)
    (sc : Handle) (h : ReachesBind b p)
    (hne : p.pbufferSurface ≠ self.mCurrentDrawSurface ∨
      p.pbufferSurface ≠ self.mCurrentReadSurface)
    (hfail : p.makeCurrent = EGL_FALSE) :
    (createDriver b p self sc).trace = uptoContext b p self sc ++
      [Call.eglMakeCurrent p.display p.pbufferSurface p.pbufferSurface p.context,
       Call.eglGetError,
       Call.eglDestroySurface p.display p.pbufferSurface,
       Call.eglDestroyContext p.display p.context,
       Call.eglTerminate p.display, Call.eglReleaseThread] ∧
    (createDriver b p self sc).result = Outcome.returned nullptr ∧
    (createDriver b p self sc).state.mCurrentDrawSurface = p.pbufferSurface ∧
    (createDriver b p self sc).state.mCurrentReadSurface = p.pbufferSurface ∧
    (createDriver b p self sc).state.mEGLDummySurface = EGL_NO_SURFACE ∧
    (createDriver b p self sc).state.mEGLContext = EGL_NO_CONTEXT := by
  have hb : makeCurrent (beforeBind p self) p.pbufferSurface p.pbufferSurface p.makeCurrent =
      { state := { beforeBind p self with mCurrentDrawSurface := p.pbufferSurface,
                                          mCurrentReadSurface := p.pbufferSurface }
        trace := [Call.eglMakeCurrent p.display p.pbufferSurface p.pbufferSurface p.context]
        result := Outcome.returned 0 } := by
    have hne2 : p.pbufferSurface ≠ (beforeBind p self).mCurrentDrawSurface ∨
        p.pbufferSurface ≠ (beforeBind p self).mCurrentReadSurface := hne
    unfold makeCurrent
    rw [if_pos hne2, hfail]
    rfl
  rw [createDriver_bind_path b p self sc h, hb, if_pos rfl]
  obtain ⟨-, -, -, -, h5, h6⟩ := h
  simp [errorLabel, beforeBind, h5, h6]

theorem step_state (self : PlatformEGLHeadless) (op : Op) (r : Reply) :
    (step self op r).1 = self ∨
    (∃ d rd, op = Op.makeCurrent d rd ∧ (d ≠ EGL_NO_SURFACE ∨ rd ≠ EGL_NO_SURFACE) ∧
      (step self op r).1 = (makeCurrent self d rd r.status).state) ∨
    (step self op r).1 =
      (makeCurrent self self.mEGLDummySurface self.mEGLDummySurface r.status).state := by
  cases op with
  | createSwapChain w f =>
    left
    simp only [step, createSwapChain]
    split_ifs <;> rfl
  | createSwapChainHeadless w h f =>
    left
    simp only [step, createSwapChainHeadless]
    split_ifs <;> rfl
  | destroySwapChain sc =>
    simp only [step, destroySwapChain]
    split_ifs
    · right; right; rfl
    · left; rfl
  | makeCurrent d rd =>
    simp only [step, makeCurrentSwapChain]
    split_ifs with h
    · right; left; exact ⟨d, rd, rfl, h, rfl⟩
    · left; rfl
  | commit sc =>
    left
    simp only [step, commit]
    split_ifs <;> rfl

theorem step_held (self : PlatformEGLHeadless) (op : Op) (r : Reply) (h : BindingHeld self) :
    BindingHeld (step self op r).1 := by
  rcases step_state self op r with e | ⟨d, rd, -, hne, e⟩ | e
  · rw [e]; exact h
  · rw [e]
    exact ⟨by rw [makeCurrent_state_dummy]; exact h.1,
      by rw [makeCurrent_state_draw, makeCurrent_state_read]; exact hne⟩
  · rw [e]
    exact ⟨by rw [makeCurrent_state_dummy]; exact h.1,
      by rw [makeCurrent_state_draw]; exact Or.inl h.1⟩

theorem step_whole (self : PlatformEGLHeadless) (op : Op) (r : Reply) (h : BindingWhole self)
    (hop : op.bindsWholePair) : BindingWhole (step self op r).1 := by
  rcases step_state self op r with e | ⟨d, rd, hd, hne, e⟩ | e
  · rw [e]; exact h
  · rw [e]
    subst hd
    have hiff : d = EGL_NO_SURFACE ↔ rd = EGL_NO_SURFACE := hop
    have hd0 : d ≠ EGL_NO_SURFACE := by
      rcases hne with h1 | h1
      · exact h1
      · exact fun e0 => h1 (hiff.mp e0)
    have hr0 : rd ≠ EGL_NO_SURFACE := fun e0 => hd0 (hiff.mpr e0)
    exact ⟨by rw [makeCurrent_state_dummy]; exact h.1,
      by rw [makeCurrent_state_draw]; exact hd0, by rw [makeCurrent_state_read]; exact hr0⟩
  · rw [e]
    exact ⟨by rw [makeCurrent_state_dummy]; exact h.1,
      by rw [makeCurrent_state_draw]; exact h.1, by rw [makeCurrent_state_read]; exact h.1⟩

theorem runOps_held (ops : List (Op × Reply)) :
    ∀ self : PlatformEGLHeadless, BindingHeld self → BindingHeld (runOps self ops).1 := by
  induction ops with
  | nil => intro self h; exact h
  | cons x rest ih =>
    intro self h
    obtain ⟨op, r⟩ := x
    exact ih _ (step_held self op r h)

theorem runOps_whole (ops : List (Op × Reply)) :
    ∀ self : PlatformEGLHeadless, BindingWhole self → (∀ x ∈ ops, x.1.bindsWholePair) →
      BindingWhole (runOps self ops).1 := by
  induction ops with
  | nil => intro self h _; exact h
  | cons x rest ih =>
    intro self h hops
    obtain ⟨op, r⟩ := x
    exact ih _ (step_whole self op r h (hops (op, r) (List.mem_cons_self _ _)))
      (fun y hy => hops y (List.mem_cons_of_mem _ hy))

/-- C1: whenever `createDriver` returns a non-null driver, for any build, entry
state, shared context and platform answers, the cached binding afterwards is
(`mEGLDummySurface`, `mEGLDummySurface`), and that surface is the non-null handle
the run obtained from `eglCreatePbufferSurface` with the 1x1 attribute list. -/
theorem createDriver_binds_dummy_pair (b : Build) (p : Platform) (self : PlatformEGLHeadless)
    (sharedContext d : Handle)
    (hret : (createDriver b p self sharedContext).result = Outcome.returned d)
    (hd : d ≠ nullptr) :
    (createDriver b p self sharedContext).state.mCurrentDrawSurface =
      (createDriver b p self sharedContext).state.mEGLDummySurface ∧
    (createDriver b p self sharedContext).state.mCurrentReadSurface =
      (createDriver b p self sharedContext).state.mEGLDummySurface ∧
    (createDriver b p self sharedContext).state.mEGLDummySurface = p.pbufferSurface ∧
    p.pbufferSurface ≠ EGL_NO_SURFACE ∧
    Call.eglCreatePbufferSurface p.display
        (createDriver b p self sharedContext).state.mEGLConfig
        [EGL_WIDTH, 1, EGL_HEIGHT, 1, EGL_NONE] ∈
      (createDriver b p self sharedContext).trace := by
  obtain ⟨hs, hp⟩ := createDriver_success_state b p self sharedContext d hret hd
  have ht := createDriver_success_trace b p self sharedContext d hret hd
  have hcfg : (createDriver b p self sharedContext).state.mEGLConfig =
      p.config.getD self.mEGLConfig := by
    rw [hs]
    unfold makeCurrent
    split_ifs <;> rfl
  rw [hcfg]
  rw [hs, makeCurrent_state_draw, makeCurrent_state_read, makeCurrent_state_dummy]
  exact ⟨rfl, rfl, rfl, hp, ht⟩

/-- C1 at a platform on which every step succeeds: surface 3 is the dummy surface and is bound as draw and read surface. -/
theorem createDriver_binds_dummy_pair_witness :
    (createDriver releaseBuild working unset 0).result = Outcome.returned 5 ∧
    (createDriver releaseBuild working unset 0).state.mCurrentDrawSurface = 3 ∧
    (createDriver releaseBuild working unset 0).state.mCurrentReadSurface = 3 ∧
    (createDriver releaseBuild working unset 0).state.mEGLDummySurface = 3 :=
  have h := createDriver_binds_dummy_pair releaseBuild working unset 0 5 (by decide) (by decide)
  ⟨by decide, h.1.trans h.2.2.1, h.2.1.trans h.2.2.1, h.2.2.1⟩

/-- C2: binding the pair that is already current issues no platform call at all
(so none to `eglMakeCurrent`), leaves the manager unchanged, and the internal
bind returns `EGL_TRUE`; the public bind on that pair is a no-op as well. -/
theorem makeCurrent_current_pair_noop (self : PlatformEGLHeadless) (draw read : Handle)
    (ret : EGLBoolean) (hdraw : draw = self.mCurrentDrawSurface)
    (hread : read = self.mCurrentReadSurface) :
    (makeCurrent self draw read ret).trace = [] ∧
    (makeCurrent self draw read ret).state = self ∧
    (makeCurrent self draw read ret).result = Outcome.returned EGL_TRUE ∧
    (makeCurrentSwapChain self draw read ret).trace = [] ∧
    (makeCurrentSwapChain self draw read ret).state = self := by
  subst hdraw hread
  have h : ¬ (self.mCurrentDrawSurface ≠ self.mCurrentDrawSurface ∨
      self.mCurrentReadSurface ≠ self.mCurrentReadSurface) := by simp
  unfold makeCurrentSwapChain makeCurrent
  rw [if_neg h]
  refine ⟨rfl, rfl, rfl, ?_, ?_⟩ <;> split_ifs <;> rfl

/-- C2 after a successful `createDriver`: binding the pair (3, 3) again makes no platform call. -/
theorem makeCurrent_current_pair_noop_witness :
    (makeCurrent (createDriver releaseBuild working unset 0).state 3 3 0).trace = [] ∧
    (makeCurrent (createDriver releaseBuild working unset 0).state 3 3 0).result =
      Outcome.returned EGL_TRUE :=
  have h := makeCurrent_current_pair_noop (createDriver releaseBuild working unset 0).state 3 3 0
    (by decide) (by decide)
  ⟨h.1, h.2.2.1⟩

/-- C5: `destroySwapChain` on a non-null surface that is bound as draw or read
surface and is not the dummy surface issues exactly two platform calls,
`eglMakeCurrent` with (`mEGLDummySurface`, `mEGLDummySurface`) and then
`eglDestroySurface` on that surface, and leaves the dummy pair bound. -/
theorem destroySwapChain_rebinds_then_destroys (self : PlatformEGLHeadless) (sur : Handle)
    (ret : EGLBoolean) (hvalid : sur ≠ EGL_NO_SURFACE)
    (hbound : sur = self.mCurrentDrawSurface ∨ sur = self.mCurrentReadSurface)
    (hdummy : sur ≠ self.mEGLDummySurface) :
    (destroySwapChain self sur ret).trace =
      [Call.eglMakeCurrent self.mEGLDisplay self.mEGLDummySurface self.mEGLDummySurface
         self.mEGLContext,
       Call.eglDestroySurface self.mEGLDisplay sur] ∧
    (destroySwapChain self sur ret).state.mCurrentDrawSurface = self.mEGLDummySurface ∧
    (destroySwapChain self sur ret).state.mCurrentReadSurface = self.mEGLDummySurface ∧
    (destroySwapChain self sur ret).state.mEGLDummySurface = self.mEGLDummySurface := by
  have hne : self.mEGLDummySurface ≠ self.mCurrentDrawSurface ∨
      self.mEGLDummySurface ≠ self.mCurrentReadSurface := by
    rcases hbound with h | h
    · left; rw [← h]; exact fun e => hdummy e.symm
    · right; rw [← h]; exact fun e => hdummy e.symm
  unfold destroySwapChain makeCurrent
  rw [if_pos hvalid, if_pos hne]
  exact ⟨rfl, rfl, rfl, rfl⟩

/-- C5 with surface 7 bound as draw and read surface: the dummy pair is bound, then 7 is destroyed. -/
theorem destroySwapChain_rebinds_then_destroys_witness :
    (destroySwapChain
      (makeCurrentSwapChain (createDriver releaseBuild working unset 0).state 7 7 1).state
      7 1).trace = [Call.eglMakeCurrent 1 3 3 4, Call.eglDestroySurface 1 7] :=
  (destroySwapChain_rebinds_then_destroys
    (makeCurrentSwapChain (createDriver releaseBuild working unset 0).state 7 7 1).state 7 1
    (by decide) (by decide) (by decide)).1

/-- C6: the public bind with both handles null, called any number of times in a
row (each time with any platform answer), and in particular twice, leaves the
manager, hence the current binding, as it was and issues no platform call. -/
theorem makeCurrentSwapChain_invalid_pair_noop (self : PlatformEGLHeadless) :
    (∀ replies : List Reply,
      runOps self (replies.map
        (fun r => (Op.makeCurrent EGL_NO_SURFACE EGL_NO_SURFACE, r))) = (self, [])) ∧
    (∀ ret1 ret2 : EGLBoolean,
      (makeCurrentSwapChain self EGL_NO_SURFACE EGL_NO_SURFACE ret1).state = self ∧
      (makeCurrentSwapChain self EGL_NO_SURFACE EGL_NO_SURFACE ret1).trace = [] ∧
      (makeCurrentSwapChain
        (makeCurrentSwapChain self EGL_NO_SURFACE EGL_NO_SURFACE ret1).state
        EGL_NO_SURFACE EGL_NO_SURFACE ret2).state = self ∧
      (makeCurrentSwapChain
        (makeCurrentSwapChain self EGL_NO_SURFACE EGL_NO_SURFACE ret1).state
        EGL_NO_SURFACE EGL_NO_SURFACE ret2).trace = []) := by
  have h : ¬ (EGL_NO_SURFACE ≠ EGL_NO_SURFACE ∨ EGL_NO_SURFACE ≠ EGL_NO_SURFACE) := by simp
  have one : ∀ (s : PlatformEGLHeadless) (ret : EGLBoolean),
      makeCurrentSwapChain s EGL_NO_SURFACE EGL_NO_SURFACE ret =
        { state := s, trace := [], result := Outcome.returned () } := by
    intro s ret
    unfold makeCurrentSwapChain
    rw [if_neg h]
  constructor
  · intro replies
    induction replies with
    | nil => rfl
    | cons r rest ih =>
      simp only [List.map_cons, runOps, step, one, ih, List.append_nil]
  · intro ret1 ret2
    simp only [one, and_self]

/-- C7 as stated fails: after a `createDriver` that succeeds with every entry
point lookup returning null, `waitFence` on the valid fence 6 with timeout 0
calls through the null `eglClientWaitSyncKHR` pointer; it returns neither
`ERROR` nor any other status. -/
theorem waitFence_unresolved_counterexample :
    (createDriver releaseBuild noExtensions unset 0).result = Outcome.returned 5 ∧
    (createDriver releaseBuild noExtensions unset 0).state.ext.eglClientWaitSyncKHR = 0 ∧
    (waitFence releaseBuild (createDriver releaseBuild noExtensions unset 0).state 6 0
      EGL_CONDITION_SATISFIED_KHR).result = Outcome.nullCall ∧
    (waitFence releaseBuild (createDriver releaseBuild noExtensions unset 0).state 6 0
      EGL_CONDITION_SATISFIED_KHR).result ≠ Outcome.returned FenceStatus.ERROR := by
  decide

/-- C7, as the code gates the wait: for a null fence, or in a build that does not
define `EGL_KHR_reusable_sync`, `waitFence` returns `ERROR` and makes no platform
call, whatever the pointer holds. In a build that defines it, for a valid fence
and with the `eglClientWaitSyncKHR` pointer resolved, `waitFence` makes the
single call `eglClientWaitSyncKHR(display, fence, 0, timeout)` with the timeout
as given, for every timeout, and returns `CONDITION_SATISFIED` exactly for
driver status `EGL_CONDITION_SATISFIED_KHR`, `TIMEOUT_EXPIRED` exactly for
`EGL_TIMEOUT_EXPIRED_KHR`, and `ERROR` exactly for any other status. The manager
is unchanged in every case. -/
theorem waitFence_status (b : Build) (self : PlatformEGLHeadless) (fence : Handle)
    (timeout : Nat) (status : EGLint) :
    (b.EGL_KHR_reusable_sync = false ∨ fence = EGL_NO_SYNC_KHR →
      (waitFence b self fence timeout status).result = Outcome.returned FenceStatus.ERROR ∧
      (waitFence b self fence timeout status).trace = [] ∧
      (waitFence b self fence timeout status).state = self) ∧
    (b.EGL_KHR_reusable_sync = true → fence ≠ EGL_NO_SYNC_KHR →
      self.ext.eglClientWaitSyncKHR ≠ 0 →
      ((waitFence b self fence timeout status).result =
          Outcome.returned FenceStatus.CONDITION_SATISFIED ↔
        status = EGL_CONDITION_SATISFIED_KHR) ∧
      ((waitFence b self fence timeout status).result =
          Outcome.returned FenceStatus.TIMEOUT_EXPIRED ↔
        status = EGL_TIMEOUT_EXPIRED_KHR) ∧
      ((waitFence b self fence timeout status).result = Outcome.returned FenceStatus.ERROR ↔
        status ≠ EGL_CONDITION_SATISFIED_KHR ∧ status ≠ EGL_TIMEOUT_EXPIRED_KHR) ∧
      (waitFence b self fence timeout status).trace =
        [Call.eglClientWaitSyncKHR self.mEGLDisplay fence 0 timeout] ∧
      (waitFence b self fence timeout status).state = self) := by
  refine ⟨?_, ?_⟩
  · intro h
    have hc : ¬ (b.EGL_KHR_reusable_sync = true ∧ fence ≠ EGL_NO_SYNC_KHR) := by
      rcases h with h | h
      · intro hc
        rw [h] at hc
        exact absurd hc.1 (by decide)
      · exact fun hc => hc.2 h
    unfold waitFence
    rw [if_neg hc]
    exact ⟨rfl, rfl, rfl⟩
  · intro hb hf hp
    unfold waitFence
    rw [if_pos ⟨hb, hf⟩, if_neg hp]
    by_cases h1 : status = EGL_CONDITION_SATISFIED_KHR
    · rw [if_pos h1]
      simp [h1]
    · rw [if_neg h1]
      by_cases h2 : status = EGL_TIMEOUT_EXPIRED_KHR
      · rw [if_pos h2]
        simp [h2]
      · rw [if_neg h2]
        simp [h1, h2]

/-- C7 with timeout 0 on a fence whose wait reports `EGL_CONDITION_SATISFIED_KHR`,
and on the null fence. -/
theorem waitFence_status_witness :
    (waitFence releaseBuild (createDriver releaseBuild working unset 0).state 6 0
      EGL_CONDITION_SATISFIED_KHR).result = Outcome.returned FenceStatus.CONDITION_SATISFIED ∧
    (waitFence releaseBuild (createDriver releaseBuild noExtensions unset 0).state
      EGL_NO_SYNC_KHR 0 EGL_CONDITION_SATISFIED_KHR).result =
      Outcome.returned FenceStatus.ERROR :=
  ⟨((waitFence_status releaseBuild (createDriver releaseBuild working unset 0).state 6 0
      EGL_CONDITION_SATISFIED_KHR).2 (by decide) (by decide) (by decide)).1.mpr rfl,
   ((waitFence_status releaseBuild (createDriver releaseBuild noExtensions unset 0).state
      EGL_NO_SYNC_KHR 0 EGL_CONDITION_SATISFIED_KHR).1 (Or.inr rfl)).1⟩

/-- C3, as the code orders the unwind: when steps 1 to 4 succeed, a failure of
step 5 on a manager whose context handle is null issues only `eglTerminate` and
`eglReleaseThread`; a failure of step 7 issues `eglDestroySurface` on the dummy
surface, then `eglTerminate`, `eglReleaseThread`, and no `eglDestroyContext`; a
failure of step 8 issues `eglDestroySurface` on the dummy surface, then
`eglDestroyContext`, then `eglTerminate`, `eglReleaseThread`. In each case these
are all the release calls of the run, they come last, and null is returned. -/
theorem createDriver_unwind_order (b : Build) (p : Platform) (self : PlatformEGLHeadless)
    (sharedContext : Handle) (hassert : ¬ (b.NDEBUG = false ∧ p.display = EGL_NO_DISPLAY))
    (hinit : p.initialized ≠ 0) (hchoose : p.chooseConfig ≠ 0) (hcount : p.configsCount ≠ 0) :
    (p.pbufferSurface = EGL_NO_SURFACE → self.mEGLContext = EGL_NO_CONTEXT →
      (createDriver b p self sharedContext).result = Outcome.returned nullptr ∧
      releaseCalls (createDriver b p self sharedContext).trace =
        [Call.eglTerminate p.display, Call.eglReleaseThread] ∧
      [Call.eglTerminate p.display, Call.eglReleaseThread] <:+
        (createDriver b p self sharedContext).trace) ∧
    (p.pbufferSurface ≠ EGL_NO_SURFACE → p.context = EGL_NO_CONTEXT →
      (createDriver b p self sharedContext).result = Outcome.returned nullptr ∧
      releaseCalls (createDriver b p self sharedContext).trace =
        [Call.eglDestroySurface p.display p.pbufferSurface,
         Call.eglTerminate p.display, Call.eglReleaseThread] ∧
      [Call.eglDestroySurface p.display p.pbufferSurface,
       Call.eglTerminate p.display, Call.eglReleaseThread] <:+
        (createDriver b p self sharedContext).trace) ∧
    (p.pbufferSurface ≠ EGL_NO_SURFACE → p.context ≠ EGL_NO_CONTEXT →
      (p.pbufferSurface ≠ self.mCurrentDrawSurface ∨
        p.pbufferSurface ≠ self.mCurrentReadSurface) →
      p.makeCurrent = EGL_FALSE →
      (createDriver b p self sharedContext).result = Outcome.returned nullptr ∧
      releaseCalls (createDriver b p self sharedContext).trace =
        [Call.eglDestroySurface p.display p.pbufferSurface,
         Call.eglDestroyContext p.display p.context,
         Call.eglTerminate p.display, Call.eglReleaseThread] ∧
      [Call.eglDestroySurface p.display p.pbufferSurface,
       Call.eglDestroyContext p.display p.context,
       Call.eglTerminate p.display, Call.eglReleaseThread] <:+
        (createDriver b p self sharedContext).trace) := by
  refine ⟨?_, ?_, ?_⟩
  · intro h5 hctx
    obtain ⟨ht, hr⟩ :=
      createDriver_pbuffer_path b p self sharedContext hassert hinit hchoose hcount h5
    rw [if_neg (not_not.mpr hctx)] at ht
    refine ⟨hr, ?_, ?_⟩
    · rw [ht]
      simp only [releaseCalls_append, releaseCalls_uptoConfig]
      simp [releaseCalls, Call.isRelease]
    · rw [ht]
      exact List.suffix_append _ _
  · intro h5 h6
    obtain ⟨ht, hr⟩ :=
      createDriver_context_path b p self sharedContext hassert hinit hchoose hcount h5 h6
    refine ⟨hr, ?_, ?_⟩
    · rw [ht]
      simp only [releaseCalls_append, releaseCalls_uptoContext]
      simp [releaseCalls, Call.isRelease]
    · rw [ht]
      exact ⟨uptoContext b p self sharedContext ++ [Call.eglGetError], by simp⟩
  · intro h5 h6 hne hfail
    obtain ⟨ht, hr, -⟩ := createDriver_bind_failure b p self sharedContext
      ⟨hassert, hinit, hchoose, hcount, h5, h6⟩ hne hfail
    refine ⟨hr, ?_, ?_⟩
    · rw [ht]
      simp only [releaseCalls_append, releaseCalls_uptoContext]
      simp [releaseCalls, Call.isRelease]
    · rw [ht]
      exact ⟨uptoContext b p self sharedContext ++
        [Call.eglMakeCurrent p.display p.pbufferSurface p.pbufferSurface p.context,
         Call.eglGetError], by simp⟩

/-- C3 at a platform whose `eglMakeCurrent` fails: the release calls of the step 8 unwind. -/
theorem createDriver_unwind_order_witness :
    releaseCalls (createDriver releaseBuild failsAtBind unset 0).trace =
      [Call.eglDestroySurface 1 3, Call.eglDestroyContext 1 4,
       Call.eglTerminate 1, Call.eglReleaseThread] :=
  ((createDriver_unwind_order releaseBuild failsAtBind unset 0 (by decide) (by decide)
    (by decide) (by decide)).2.2 (by decide) (by decide) (by decide) (by decide)).2.1

/-- C3 as stated fails: on a manager with no handle set, with display 1, dummy
surface 3 and context 4, a failing `eglMakeCurrent` at step 8 is followed by
`eglDestroySurface(1, 3)` and only then `eglDestroyContext(1, 4)`; the context is
not destroyed first. -/
theorem createDriver_step8_unwind_counterexample :
    (createDriver releaseBuild failsAtBind unset 0).result = Outcome.returned nullptr ∧
    Call.eglMakeCurrent 1 3 3 4 ∈ (createDriver releaseBuild failsAtBind unset 0).trace ∧
    releaseCalls (createDriver releaseBuild failsAtBind unset 0).trace =
      [Call.eglDestroySurface 1 3, Call.eglDestroyContext 1 4,
       Call.eglTerminate 1, Call.eglReleaseThread] ∧
    releaseCalls (createDriver releaseBuild failsAtBind unset 0).trace ≠
      [Call.eglDestroyContext 1 4, Call.eglDestroySurface 1 3,
       Call.eglTerminate 1, Call.eglReleaseThread] := by
  decide

/-- C4 as stated fails: on a manager left by an earlier successful
`createDriver` (dummy surface 3, context 4), a `createDriver` whose config
selection reports zero configs returns null, but `eglDestroySurface(1, 3)` and
`eglDestroyContext(1, 4)` follow config selection before `eglTerminate` and
`eglReleaseThread`. -/
theorem createDriver_no_config_counterexample :
    (createDriver releaseBuild working unset 0).result = Outcome.returned 5 ∧
    (createDriver releaseBuild noConfig
      (createDriver releaseBuild working unset 0).state 0).result = Outcome.returned nullptr ∧
    (createDriver releaseBuild noConfig
      (createDriver releaseBuild working unset 0).state 0).trace =
      uptoConfig noConfig ++
        [Call.eglDestroySurface 1 3, Call.eglDestroyContext 1 4,
         Call.eglTerminate 1, Call.eglReleaseThread] ∧
    (createDriver releaseBuild noConfig
      (createDriver releaseBuild working unset 0).state 0).trace ≠
      uptoConfig noConfig ++ [Call.eglTerminate 1, Call.eglReleaseThread] := by
  decide

/-- C4, with the entry condition: when the display assertion holds,
`eglInitialize` and `eglChooseConfig` succeed and `configsCount` is 0,
`createDriver` returns null and its trace holds no `eglCreatePbufferSurface`,
`eglCreateWindowSurface` or `eglCreateContext` call, from any entry state. After
config selection it destroys the dummy surface and the context the manager held
at entry, each only if its handle is non-null, then issues `eglTerminate` and
`eglReleaseThread`; so on a manager whose dummy surface and context handles are
null at entry exactly `eglTerminate` and `eglReleaseThread` follow. -/
theorem createDriver_no_config (b : Build) (p : Platform) (self : PlatformEGLHeadless)
    (sharedContext : Handle) (hassert : ¬ (b.NDEBUG = false ∧ p.display = EGL_NO_DISPLAY))
    (hinit : p.initialized ≠ 0) (hchoose : p.chooseConfig ≠ 0) (hcount : p.configsCount = 0) :
    (createDriver b p self sharedContext).result = Outcome.returned nullptr ∧
    (∀ c ∈ (createDriver b p self sharedContext).trace, c.isCreation = false) ∧
    (createDriver b p self sharedContext).trace =
      [Call.eglGetDisplay EGL_DEFAULT_DISPLAY, Call.eglInitialize p.display,
       Call.eglQueryString p.display EGL_EXTENSIONS,
       Call.eglGetProcAddress ProcName.eglCreateSyncKHR,
       Call.eglGetProcAddress ProcName.eglDestroySyncKHR,
       Call.eglGetProcAddress ProcName.eglClientWaitSyncKHR,
       Call.eglGetProcAddress ProcName.eglCreateImageKHR,
       Call.eglGetProcAddress ProcName.eglDestroyImageKHR,
       Call.eglChooseConfig p.display configAttribs 1] ++
      (if self.mEGLDummySurface ≠ EGL_NO_SURFACE then
        [Call.eglDestroySurface p.display self.mEGLDummySurface] else []) ++
      (if self.mEGLContext ≠ EGL_NO_CONTEXT then
        [Call.eglDestroyContext p.display self.mEGLContext] else []) ++
      [Call.eglTerminate p.display, Call.eglReleaseThread] ∧
    (self.mEGLDummySurface = EGL_NO_SURFACE → self.mEGLContext = EGL_NO_CONTEXT →
      (createDriver b p self sharedContext).trace =
        [Call.eglGetDisplay EGL_DEFAULT_DISPLAY, Call.eglInitialize p.display,
         Call.eglQueryString p.display EGL_EXTENSIONS,
         Call.eglGetProcAddress ProcName.eglCreateSyncKHR,
         Call.eglGetProcAddress ProcName.eglDestroySyncKHR,
         Call.eglGetProcAddress ProcName.eglClientWaitSyncKHR,
         Call.eglGetProcAddress ProcName.eglCreateImageKHR,
         Call.eglGetProcAddress ProcName.eglDestroyImageKHR,
         Call.eglChooseConfig p.display configAttribs 1,
         Call.eglTerminate p.display, Call.eglReleaseThread]) := by
  obtain ⟨ht, hr⟩ :=
    createDriver_config_path b p self sharedContext hassert hinit hchoose hcount
  refine ⟨hr, ?_, ?_, ?_⟩
  · have hnone : (createDriver b p self sharedContext).trace.filter Call.isCreation = [] := by
      rw [ht]
      split_ifs <;> simp [uptoConfig, procLookups, Call.isCreation]
    intro c hc
    have := List.filter_eq_nil_iff.mp hnone c hc
    simpa using this
  · rw [ht]
    simp [uptoConfig, procLookups]
  · intro hs hc
    rw [ht, if_neg (not_not.mpr hs), if_neg (not_not.mpr hc)]
    simp [uptoConfig, procLookups]

/-- C4 at a platform that reports zero configs, on a manager with no handle set. -/
theorem createDriver_no_config_witness :
    (createDriver releaseBuild noConfig unset 0).result = Outcome.returned nullptr ∧
    (createDriver releaseBuild noConfig unset 0).trace =
      uptoConfig noConfig ++ [Call.eglTerminate 1, Call.eglReleaseThread] :=
  have h := createDriver_no_config releaseBuild noConfig unset 0 (by decide) (by decide)
    (by decide) (by decide)
  ⟨h.1, h.2.2.2 (by decide) (by decide)⟩

/-- C9 as stated fails: after a successful `createDriver`, the public bind
`makeCurrent(7, null)` leaves the cached read surface null. -/
theorem binding_read_null_counterexample :
    (createDriver releaseBuild working unset 0).result = Outcome.returned 5 ∧
    (runOps (createDriver releaseBuild working unset 0).state
      [(Op.makeCurrent 7 EGL_NO_SURFACE, { surface := 0, status := 1 })]).1.mCurrentDrawSurface
        = 7 ∧
    (runOps (createDriver releaseBuild working unset 0).state
      [(Op.makeCurrent 7 EGL_NO_SURFACE, { surface := 0, status := 1 })]).1.mCurrentReadSurface
        = EGL_NO_SURFACE := by
  decide

/-- C9, as the code keeps it: in every state reached from a `createDriver` that
returned a non-null driver by any sequence of public `makeCurrent`,
`createSwapChain`, `destroySwapChain` and `commit` calls, with any platform
answers, the dummy surface handle is non-null and the cached binding is never
(null, null); when no bind in the sequence passes exactly one null handle, both
the draw and the read surface of the cached binding are non-null. -/
theorem binding_never_empty (b : Build) (p : Platform) (self : PlatformEGLHeadless)
    (sharedContext d : Handle) (ops : List (Op × Reply))
    (hret : (createDriver b p self sharedContext).result = Outcome.returned d)
    (hd : d ≠ nullptr) :
    (runOps (createDriver b p self sharedContext).state ops).1.mEGLDummySurface ≠
      EGL_NO_SURFACE ∧
    ((runOps (createDriver b p self sharedContext).state ops).1.mCurrentDrawSurface ≠
        EGL_NO_SURFACE ∨
      (runOps (createDriver b p self sharedContext).state ops).1.mCurrentReadSurface ≠
        EGL_NO_SURFACE) ∧
    ((∀ x ∈ ops, x.1.bindsWholePair) →
      (runOps (createDriver b p self sharedContext).state ops).1.mCurrentDrawSurface ≠
        EGL_NO_SURFACE ∧
      (runOps (createDriver b p self sharedContext).state ops).1.mCurrentReadSurface ≠
        EGL_NO_SURFACE) := by
  obtain ⟨hs, hp⟩ := createDriver_success_state b p self sharedContext d hret hd
  have hdummy : (createDriver b p self sharedContext).state.mEGLDummySurface =
      p.pbufferSurface := by rw [hs, makeCurrent_state_dummy]; rfl
  have hdraw : (createDriver b p self sharedContext).state.mCurrentDrawSurface =
      p.pbufferSurface := by rw [hs, makeCurrent_state_draw]
  have hread : (createDriver b p self sharedContext).state.mCurrentReadSurface =
      p.pbufferSurface := by rw [hs, makeCurrent_state_read]
  have hwhole : BindingWhole (createDriver b p self sharedContext).state :=
    ⟨by rw [hdummy]; exact hp, by rw [hdraw]; exact hp, by rw [hread]; exact hp⟩
  have hheld := runOps_held ops _ ⟨hwhole.1, Or.inl hwhole.2.1⟩
  exact ⟨hheld.1, hheld.2, fun hops => (runOps_whole ops _ hwhole hops).2⟩

/-- C9 on a sequence that binds (7, 8) and then destroys surface 7. -/
theorem binding_never_empty_witness :
    (runOps (createDriver releaseBuild working unset 0).state
      [(Op.makeCurrent 7 8, { surface := 0, status := 1 }),
       (Op.destroySwapChain 7, { surface := 0, status := 0 })]).1.mCurrentDrawSurface ≠
        EGL_NO_SURFACE ∧
    (runOps (createDriver releaseBuild working unset 0).state
      [(Op.makeCurrent 7 8, { surface := 0, status := 1 }),
       (Op.destroySwapChain 7, { surface := 0, status := 0 })]).1.mCurrentReadSurface ≠
        EGL_NO_SURFACE :=
  (binding_never_empty releaseBuild working unset 0 5
    [(Op.makeCurrent 7 8, { surface := 0, status := 1 }),
     (Op.destroySwapChain 7, { surface := 0, status := 0 })] (by decide) (by decide)).2.2
    (by simp [Op.bindsWholePair])

/-- C10: for a pair different from the cached binding, the internal bind stores
the pair, issues one `eglMakeCurrent` and returns what the platform returned;
the stored pair stays whatever that was, so the same bind repeated at once
issues no platform call and returns `EGL_TRUE`. When step 8 of `createDriver`
fails, null is returned, the dummy surface and context handles are reset to
null, and the cached binding keeps the destroyed dummy pair. -/
theorem makeCurrent_caches_before_platform (self : PlatformEGLHeadless) (draw read : Handle)
    (ret : EGLBoolean) :
    ((draw ≠ self.mCurrentDrawSurface ∨ read ≠ self.mCurrentReadSurface) →
      (makeCurrent self draw read ret).state.mCurrentDrawSurface = draw ∧
      (makeCurrent self draw read ret).state.mCurrentReadSurface = read ∧
      (makeCurrent self draw read ret).trace =
        [Call.eglMakeCurrent self.mEGLDisplay draw read self.mEGLContext] ∧
      (makeCurrent self draw read ret).result = Outcome.returned ret ∧
      ∀ ret2 : EGLBoolean,
        (makeCurrent (makeCurrent self draw read ret).state draw read ret2).trace = [] ∧
        (makeCurrent (makeCurrent self draw read ret).state draw read ret2).result =
          Outcome.returned EGL_TRUE ∧
        (makeCurrent (makeCurrent self draw read ret).state draw read ret2).state =
          (makeCurrent self draw read ret).state) ∧
    (∀ (b : Build) (p : Platform) (sharedContext : Handle), ReachesBind b p →
      (p.pbufferSurface ≠ self.mCurrentDrawSurface ∨
        p.pbufferSurface ≠ self.mCurrentReadSurface) →
      p.makeCurrent = EGL_FALSE →
      (createDriver b p self sharedContext).result = Outcome.returned nullptr ∧
      (createDriver b p self sharedContext).state.mCurrentDrawSurface = p.pbufferSurface ∧
      (createDriver b p self sharedContext).state.mCurrentReadSurface = p.pbufferSurface ∧
      (createDriver b p self sharedContext).state.mEGLDummySurface = EGL_NO_SURFACE ∧
      (createDriver b p self sharedContext).state.mEGLContext = EGL_NO_CONTEXT) := by
  refine ⟨?_, ?_⟩
  · intro hne
    have hsame : ¬ (draw ≠ (makeCurrent self draw read ret).state.mCurrentDrawSurface ∨
        read ≠ (makeCurrent self draw read ret).state.mCurrentReadSurface) := by
      rw [makeCurrent_state_draw, makeCurrent_state_read]
      simp
    refine ⟨makeCurrent_state_draw _ _ _ _, makeCurrent_state_read _ _ _ _, ?_, ?_, ?_⟩
    · unfold makeCurrent; rw [if_pos hne]
    · unfold makeCurrent; rw [if_pos hne]
    · intro ret2
      generalize (makeCurrent self draw read ret).state = s at hsame ⊢
      unfold makeCurrent
      rw [if_neg hsame]
      exact ⟨rfl, rfl, rfl⟩
  · intro b p sharedContext hreach hne hfail
    exact (createDriver_bind_failure b p self sharedContext hreach hne hfail).2

/-- C10 with a failing platform bind of (7, 8), and with a failing step 8. -/
theorem makeCurrent_caches_before_platform_witness :
    (makeCurrent (makeCurrent unset 7 8 EGL_FALSE).state 7 8 EGL_FALSE).result =
      Outcome.returned EGL_TRUE ∧
    (createDriver releaseBuild failsAtBind unset 0).state.mCurrentDrawSurface = 3 ∧
    (createDriver releaseBuild failsAtBind unset 0).state.mEGLDummySurface = EGL_NO_SURFACE :=
  have h := makeCurrent_caches_before_platform unset 7 8 EGL_FALSE
  have h2 := h.2 releaseBuild failsAtBind 0 (by unfold ReachesBind; decide) (by decide)
    (by decide)
  ⟨((h.1 (by decide)).2.2.2.2 EGL_FALSE).2.1, h2.2.1, h2.2.2.2.1⟩

end PlatformEGLHeadless

end filament
